import Mathlib

/-!
Shallow embedding of the two data-loading scripts of this repository
(`src/Complaints.py` and `src/USDemographics.py`) and proofs of the
specified properties of their pipeline stages.

Conventions of the embedding:
* Python values appearing in a complaints source row are modelled by
  `ComplaintsModel.Value` (strings, integers, and `None`); truthiness
  follows Python (`None`, the empty string and `0` are falsy).
* A Python `dict` / pandas row is an association list; `dict.get`
  returns the `None` marker when the key is absent.
* Code that can raise is modelled in `Except`/`Option`: `int(...)` on a
  non-numeric string fails, `str(...)` is total, and
  `pd.to_datetime(..., errors='coerce')` is total, yielding the null
  marker `NaT` (here `Option.none`) on unparsable input.  The date
  parser is modelled for ISO `YYYY-MM-DD` strings, the format exercised
  by the specification; non-string inputs coerce to null.
* The database is the list of rows of the destination table; a commit
  appends the pending inserted rows.
-/

namespace ComplaintsModel

/-- A raw Python value of a source row cell. -/
inductive Value where
  | str (s : String)
  | int (n : Int)
  | null
deriving DecidableEq, Repr

/-- Python truthiness on raw values: `None`, `""` and `0` are falsy. -/
def truthy : Value → Bool
  | .str s => !s.toList.isEmpty
  | .int n => n != 0
  | .null => false

/-- A source row (`row` in `clean_data`): mapping from column name to value. -/
abbrev Record := List (String × Value)

/-- The Python `row.get(k)`: value of the first matching key, `None` if absent. -/
def rowGet (row : Record) (k : String) : Value :=
  match row.find? (fun p => p.1 == k) with
  | some p => p.2
  | none => .null

/-- Accumulate decimal digits; fails on the first non-digit character. -/
def parseNatAux : List Char → Nat → Option Nat
  | [], acc => some acc
  | c :: cs, acc =>
    if c.isDigit then parseNatAux cs (acc * 10 + (c.toNat - 48)) else none

/-- Parse a non-empty all-digit character list as a natural number. -/
def parseNat? : List Char → Option Nat
  | [] => none
  | c :: cs => parseNatAux (c :: cs) 0

/-- Parse a decimal integer with an optional sign, as Python `int(...)` does
on a string. -/
def parseInt? (s : String) : Option Int :=
  match s.toList with
  | '-' :: cs => (parseNat? cs).map (fun n => -(n : Int))
  | '+' :: cs => (parseNat? cs).map (fun n => (n : Int))
  | cs => (parseNat? cs).map (fun n => (n : Int))

/-- The Python `int(v)`: succeeds on integers and integer-formatted strings,
fails (raises `ValueError`) otherwise. -/
def castInt : Value → Option Int
  | .int n => some n
  | .str s => parseInt? s
  | .null => none

/-- The Python `str(v)`: total. -/
def castStr : Value → String
  | .str s => s
  | .int n => toString n
  | .null => "None"

/-- A calendar date, the result of `.date()` on a parsed timestamp. -/
structure Date where
  year : Nat
  month : Nat
  day : Nat
deriving DecidableEq, Repr

def isLeap (y : Nat) : Bool :=
  (y % 4 == 0 && y % 100 != 0) || (y % 400 == 0)

def daysInMonth (y m : Nat) : Nat :=
  if m == 2 then (if isLeap y then 29 else 28)
  else if m == 4 || m == 6 || m == 9 || m == 11 then 30
  else 31

/-- Split a character list into the groups separated by dashes. -/
def splitDash : List Char → List (List Char)
  | [] => [[]]
  | c :: cs =>
    if c == '-' then [] :: splitDash cs
    else
      match splitDash cs with
      | g :: gs => (c :: g) :: gs
      | [] => [[c]]

/-- Parse an ISO `YYYY-MM-DD` string into a date; `none` on anything else. -/
def parseDateISO (s : String) : Option Date :=
  match splitDash s.toList with
  | [ys, ms, ds] =>
    match parseNat? ys, parseNat? ms, parseNat? ds with
    | some y, some m, some d =>
      if 1 ≤ m && m ≤ 12 && 1 ≤ d && d ≤ daysInMonth y m then some ⟨y, m, d⟩ else none
    | _, _, _ => none
  | _ => none

/-- The `pd.to_datetime(v, errors='coerce').date()` call of `clean_data`:
never raises, returns `none` (NaT, persisted as SQL NULL) when the value
does not parse as a date. -/
def parseDateCoerce : Value → Option Date
  | .str s => parseDateISO s
  | _ => none

/-- A cleaned, typed cell value of a `CleanedRow`. -/
inductive CValue where
  | int (n : Int)
  | str (s : String)
  | date (d : Date)
  | null
deriving DecidableEq, Repr

/-- A cleaned row: the dict built by `clean_data`, in insertion order. -/
abbrev CleanedRow := List (String × CValue)

/-- Lookup of a key in a cleaned row. -/
def rowLookup (l : CleanedRow) (k : String) : Option CValue :=
  match l.find? (fun p => p.1 == k) with
  | some p => some p.2
  | none => none

/-- The value of a string-typed field of the cleaned dict:
`str(row.get(k)) if row.get(k) else None`. -/
def strField (row : Record) (k : String) : CValue :=
  let v := rowGet row k
  if truthy v then .str (castStr v) else .null

/-- The value of the `date_received` field:
`pd.to_datetime(row.get("Date received"), errors='coerce').date() if row.get("Date received") else None`. -/
def dateField (row : Record) : CValue :=
  let v := rowGet row "Date received"
  if truthy v then
    match parseDateCoerce v with
    | some d => .date d
    | none => .null
  else .null

/-- The dict literal returned by `clean_data`, given the already-cast
`complaint_id` value; fields in the source's insertion order. -/
def buildRow (cid : CValue) (row : Record) : CleanedRow :=
  [("complaint_id", cid),
   ("product", strField row "Product"),
   ("issue", strField row "Issue"),
   ("company", strField row "Company"),
   ("state", strField row "State"),
   ("submitted_via", strField row "Submitted via"),
   ("date_received", dateField row)]

/-- The row validator `clean_data` of `src/Complaints.py`.  The dict
entries are evaluated in order; within the `Value` model the only cast
that can raise is `int(row.get("Complaint ID"))` (guarded by truthiness),
and the surrounding `try`/`except` turns that exception into `None`
(the row is dropped). -/
def clean_data (row : Record) : Option CleanedRow :=
  let cidRaw := rowGet row "Complaint ID"
  if truthy cidRaw then
    match castInt cidRaw with
    | some n => some (buildRow (.int n) row)
    | none => none
  else some (buildRow .null row)

/-- A row of the destination `Complaints` table: the cleaned values bound
positionally by the parameterized INSERT. -/
abbrev DBRow := CleanedRow

/-- The rows that the insert loop of `store_data_in_sql` executes for a
given batch: each source row cleaned, dropped rows (`None`) skipped. -/
def insertedRows (data : List Record) : List DBRow :=
  data.filterMap (fun r => clean_data r)

/-- The insert loop of `store_data_in_sql`.  `failIdx` simulates a raised
exception at the n-th executed insert (0-based); `n` counts executed
inserts so far and `pending` is the uncommitted work buffered on the
cursor.  An exception aborts the loop. -/
def runInserts (failIdx : Option Nat) : List Record → Nat → List DBRow → Except Unit (List DBRow)
  | [], _, pending => .ok pending
  | r :: rs, n, pending =>
    match clean_data r with
    | none => runInserts failIdx rs n pending
    | some cr =>
      if failIdx == some n then .error ()
      else runInserts failIdx rs (n + 1) (pending ++ [cr])

/-- The persister `store_data_in_sql` of `src/Complaints.py`: iterate the
batch, clean each row, insert the non-dropped ones, and commit once after
the loop.  If an insert raises, the `except` block reports the error (the
`false` flag), the commit is skipped, and the table is left unchanged;
the connection is closed on every path. -/
def store_data_in_sql (failIdx : Option Nat) (data : List Record) (table : List DBRow) :
    List DBRow × Bool :=
  match runInserts failIdx data 0 [] with
  | .ok pending => (table ++ pending, true)
  | .error _ => (table, false)

/-- A structured frame of source records, as produced by `pd.read_csv`. -/
abbrev CFrame := List Record

/-- The structurer `extract_and_read_csv` of `src/Complaints.py`: any
exception from decompression or parsing is caught and the function
returns `None`. -/
def extract_and_read_csv (res : Except String CFrame) : Option CFrame :=
  match res with
  | .ok f => some f
  | .error _ => none

/-- What `main` reports after the extract step. -/
inductive Report where
  | stored
  | noData
deriving DecidableEq, Repr

/-- The 7 source columns selected by `main` before persisting. -/
def sourceKeys : List String :=
  ["Complaint ID", "Product", "Issue", "Company", "State", "Submitted via", "Date received"]

/-- The column projection `data[[...]]` of `main`. -/
def selectColumns (f : CFrame) : CFrame :=
  f.map (fun r => sourceKeys.map (fun k => (k, rowGet r k)))

/-- The tail of `main` in `src/Complaints.py` after
`data = extract_and_read_csv(zip_file)`: when `data` is not `None` the
columns are projected and the persister runs; otherwise the persister is
skipped and "No data to store." is printed. -/
def mainAfterExtract (failIdx : Option Nat) (data : Option CFrame) (table : List DBRow) :
    List DBRow × Report :=
  match data with
  | some f => ((store_data_in_sql failIdx (selectColumns f) table).1, .stored)
  | none => (table, .noData)

end ComplaintsModel

namespace DemographicsModel

/-- A JSON value, as produced by `json.load`.  Numbers are modelled as
integers (the claims only involve integral counts; floating point is out
of scope). -/
inductive Json where
  | null
  | str (s : String)
  | num (n : Int)
  | arr (elems : List Json)
  | obj (fields : List (String × Json))
deriving Repr

/-- A Python exception class relevant to `src/USDemographics.py`. -/
inductive PyErr where
  | valueError
  | attrError
  | nameError
deriving DecidableEq, Repr

/-- Lookup of a key in a JSON object's field list. -/
def lookupJ (fields : List (String × Json)) (k : String) : Option Json :=
  match fields.find? (fun p => p.1 == k) with
  | some p => some p.2
  | none => none

/-- The Python `j.get(k)` (default `None`): succeeds only on a dict,
raising `AttributeError` on any other value. -/
def pyGet (j : Json) (k : String) : Except PyErr (Option Json) :=
  match j with
  | .obj fields => .ok (lookupJ fields k)
  | _ => .error .attrError

/-- The Python `j.get(k, d)` with an explicit default: succeeds only on a
dict, raising `AttributeError` on any other value. -/
def pyGetD (j : Json) (k : String) (d : Json) : Except PyErr Json :=
  match j with
  | .obj fields => .ok ((lookupJ fields k).getD d)
  | _ => .error .attrError

/-- A flattened output row: column name to cell (`none` is a null cell),
in the dict's insertion order. -/
abbrev Row := List (String × Option Json)

/-- Lookup of a column in a flattened row. -/
def lookupRow (row : Row) (c : String) : Option (Option Json) :=
  match row.find? (fun p => p.1 == c) with
  | some p => some p.2
  | none => none

/-- The 18 age-bracket labels of `json_to_dataframe`. -/
def ageGroups : List String :=
  ["0_4", "5_9", "10_14", "15_19", "20_24", "25_29",
   "30_34", "35_39", "40_44", "45_49", "50_54", "55_59",
   "60_64", "65_69", "70_74", "75_79", "80_84", "85_Plus"]

/-- The `group_data` chain of `json_to_dataframe`:
`record.get("population_by_age", {}).get("total", {}).get(group, {})`. -/
def groupData (r : Json) (g : String) : Except PyErr Json := do
  let a ← pyGetD r "population_by_age" (.obj [])
  let t ← pyGetD a "total" (.obj [])
  pyGetD t g (.obj [])

/-- The value extracted for one age-group column:
`group_data.get(y)` after the `group_data` chain. -/
def ageCol (r : Json) (g y : String) : Except PyErr (Option Json) := do
  let gd ← groupData r g
  pyGet gd y

/-- The two flattened columns produced per age group, in loop order. -/
def groupCols (r : Json) (g : String) : Except PyErr Row := do
  let gd ← groupData r g
  let y2019 ← pyGet gd "2019"
  let yCensus ← pyGet gd "2010_census"
  pure [("population_" ++ g ++ "_2019", y2019),
        ("population_" ++ g ++ "_2010_census", yCensus)]

/-- The `base_info` dict of `json_to_dataframe`, fields in source order.
The population-by-gender chain is written once here; the source evaluates
the identical pure chain once per census-year column. -/
def baseCols (r : Json) : Except PyErr Row := do
  let zipcode ← pyGet r "zipcode"
  let major_city ← pyGet r "major_city"
  let state ← pyGet r "state"
  let lat ← pyGet r "lat"
  let lng ← pyGet r "lng"
  let county ← pyGet r "county"
  let pbg ← pyGetD r "population_by_gender" (.obj [])
  let summary ← pyGetD pbg "summary" (.obj [])
  let genderTotal ← pyGetD summary "total" (.obj [])
  let pop2010 ← pyGet genderTotal "2010_census"
  let pop2019 ← pyGet genderTotal "2019"
  let ma ← pyGetD r "median_age" (.obj [])
  let maTotal ← pyGetD ma "total" (.obj [])
  let medianTotal ← pyGet maTotal "2019"
  let maMale ← pyGetD ma "male" (.obj [])
  let medianMale ← pyGet maMale "2019"
  let maFemale ← pyGetD ma "female" (.obj [])
  let medianFemale ← pyGet maFemale "2019"
  pure [("zipcode", zipcode), ("major_city", major_city), ("state", state),
        ("lat", lat), ("lng", lng), ("county", county),
        ("population_2010_census", pop2010), ("population_2019", pop2019),
        ("median_age_total_2019", medianTotal),
        ("median_age_male_2019", medianMale),
        ("median_age_female_2019", medianFemale)]

/-- Monadic map for `Except`, structural: the per-record loop, where a
raised exception aborts the whole traversal. -/
def mapME (f : α → Except PyErr β) : List α → Except PyErr (List β)
  | [] => .ok []
  | a :: l => do
    let b ← f a
    let bs ← mapME f l
    pure (b :: bs)

/-- Flatten one record: the `base_info` dict plus the 36 age-group
columns appended in loop order. -/
def flattenRecord (r : Json) : Except PyErr Row := do
  let base ← baseCols r
  let groups ← mapME (groupCols r) ageGroups
  pure (base ++ groups.flatten)

/-- The structurer `json_to_dataframe` of `src/USDemographics.py`: raises
`ValueError` when the payload is not a list, otherwise flattens each
record in order; an `AttributeError` from a `.get` on a non-dict value
propagates. -/
def json_to_dataframe (data : Json) : Except PyErr (List Row) :=
  match data with
  | .arr records => mapME flattenRecord records
  | _ => .error .valueError

/-- The column `c` of every output row of `json_to_dataframe` on payload
`p` (outer `none` would mean the column is absent from a row). -/
def colValues (p : Json) (c : String) : Except PyErr (List (Option (Option Json))) :=
  (json_to_dataframe p).map (fun rows => rows.map (fun row => lookupRow row c))

/-- Step 3 of the `__main__` block: `df = json_to_dataframe(json_data)`
inside `try`/`except ValueError`.  On `ValueError` the message is printed
and execution continues with `df` still unassigned (`none`); any other
exception propagates. -/
def mainTransform (j : Json) : Except PyErr (Option (List Row)) :=
  match json_to_dataframe j with
  | .ok f => .ok (some f)
  | .error .valueError => .ok none
  | .error e => .error e

/-- Step 4 of the `__main__` block: `save_to_sql(df, ...)`.  Evaluating
the name `df` raises an uncaught `NameError` when it was never assigned;
otherwise the destination table is replaced by the frame. -/
def mainSave (df : Option (List Row)) : Except PyErr (List Row) :=
  match df with
  | some f => .ok f
  | none => .error .nameError

/-- The whole `__main__` flow of `src/USDemographics.py` after the JSON
payload is loaded: an `Except.error` outcome is a process-terminating
uncaught exception, an `Except.ok` outcome is the final contents of the
replaced destination table. -/
def demographicsMain (j : Json) : Except PyErr (List Row) := do
  let df ← mainTransform j
  mainSave df

/-- Does the payload parse as a top-level list (`isinstance(data, list)`)? -/
def isArr : Json → Bool
  | .arr _ => true
  | _ => false

/-- Is the value a JSON object (a Python dict)? -/
def isObjJ : Json → Bool
  | .obj _ => true
  | _ => false

/-- Success test for `Except`. -/
def isOkE : Except PyErr α → Bool
  | .ok _ => true
  | .error _ => false

/-- Is the value of key `k`, when present, itself a JSON object? -/
def jObjOrAbsent (fields : List (String × Json)) (k : String) : Bool :=
  match lookupJ fields k with
  | none => true
  | some (.obj _) => true
  | some _ => false

/-- The population-by-gender extraction chain meets only objects (or
absent keys) at every intermediate level. -/
def goodGender (fields : List (String × Json)) : Bool :=
  match lookupJ fields "population_by_gender" with
  | none => true
  | some (.obj p) =>
    match lookupJ p "summary" with
    | none => true
    | some (.obj s) => jObjOrAbsent s "total"
    | some _ => false
  | some _ => false

/-- The median-age extraction chains meet only objects (or absent keys)
at every intermediate level. -/
def goodMedian (fields : List (String × Json)) : Bool :=
  match lookupJ fields "median_age" with
  | none => true
  | some (.obj m) => jObjOrAbsent m "total" && jObjOrAbsent m "male" && jObjOrAbsent m "female"
  | some _ => false

/-- The population-by-age extraction chains meet only objects (or absent
keys) at every intermediate level. -/
def goodAge (fields : List (String × Json)) : Bool :=
  match lookupJ fields "population_by_age" with
  | none => true
  | some (.obj p) =>
    match lookupJ p "total" with
    | none => true
    | some (.obj t) => ageGroups.all (fun g => jObjOrAbsent t g)
    | some _ => false
  | some _ => false

/-- A record is an object whose values along every fixed extraction path
are objects whenever present, so no `.get` in `flattenRecord` can raise. -/
def goodRecord (r : Json) : Bool :=
  match r with
  | .obj fields => goodGender fields && goodMedian fields && goodAge fields
  | _ => false

/-- A key of the age-group extraction path
`population_by_age → total → g → y` is missing at some level, every
earlier level being an object. -/
def missingAt (fields : List (String × Json)) (g y : String) : Bool :=
  match lookupJ fields "population_by_age" with
  | none => true
  | some (.obj p) =>
    match lookupJ p "total" with
    | none => true
    | some (.obj t) =>
      match lookupJ t g with
      | none => true
      | some (.obj gd) => (lookupJ gd y).isNone
      | some _ => false
    | some _ => false
  | some _ => false

end DemographicsModel


namespace ComplaintsModel

/-- Shape of every non-dropped result of `clean_data`: it is the dict
literal `buildRow`, with `complaint_id` either null (falsy source value)
or the successfully cast integer. -/
theorem clean_data_cases (r : Record) (l : CleanedRow) (h : clean_data r = some l) :
    (truthy (rowGet r "Complaint ID") = false ∧ l = buildRow .null r) ∨
    (∃ n, truthy (rowGet r "Complaint ID") = true ∧
      castInt (rowGet r "Complaint ID") = some n ∧ l = buildRow (.int n) r) := by
  unfold clean_data at h
  cases hct : truthy (rowGet r "Complaint ID") with
  | false =>
    simp only [hct, Bool.false_eq_true, if_false] at h
    exact Or.inl ⟨rfl, (Option.some.inj h).symm⟩
  | true =>
    simp only [hct, if_true] at h
    cases hci : castInt (rowGet r "Complaint ID") with
    | none => rw [hci] at h; exact absurd h (by simp)
    | some n =>
      rw [hci] at h
      exact Or.inr ⟨n, rfl, rfl, (Option.some.inj h).symm⟩

theorem dateField_falsy (r : Record) (h : truthy (rowGet r "Date received") = false) :
    dateField r = .null := by
  unfold dateField
  simp [h]

theorem dateField_unparsable (r : Record)
    (ht : truthy (rowGet r "Date received") = true)
    (hp : parseDateCoerce (rowGet r "Date received") = none) :
    dateField r = .null := by
  unfold dateField
  simp [ht, hp]

theorem dateField_parsed (r : Record) (d : Date)
    (ht : truthy (rowGet r "Date received") = true)
    (hp : parseDateCoerce (rowGet r "Date received") = some d) :
    dateField r = .date d := by
  unfold dateField
  simp [ht, hp]

theorem runInserts_none_ok (data : List Record) :
    ∀ (n : Nat) (pending : List DBRow),
      runInserts none data n pending = .ok (pending ++ insertedRows data) := by
  induction data with
  | nil => intro n pending; simp [runInserts, insertedRows]
  | cons r rs ih =>
    intro n pending
    cases h : clean_data r with
    | none => simp [runInserts, h, insertedRows, List.filterMap_cons, ih]
    | some cr =>
      simp [runInserts, h, insertedRows, List.filterMap_cons, ih]

theorem runInserts_fail (data : List Record) :
    ∀ (n : Nat) (pending : List DBRow) (k : Nat), n ≤ k →
      k < n + (insertedRows data).length →
      runInserts (some k) data n pending = .error () := by
  induction data with
  | nil =>
    intro n pending k hle hlt
    simp [insertedRows] at hlt
    omega
  | cons r rs ih =>
    intro n pending k hle hlt
    cases h : clean_data r with
    | none =>
      have hlen : (insertedRows (r :: rs)).length = (insertedRows rs).length := by
        simp [insertedRows, List.filterMap_cons, h]
      rw [hlen] at hlt
      simpa [runInserts, h] using ih n pending k hle hlt
    | some cr =>
      by_cases hk : k = n
      · subst hk
        simp [runInserts, h]
      · have hlen : (insertedRows (r :: rs)).length = (insertedRows rs).length + 1 := by
          simp [insertedRows, List.filterMap_cons, h]
        rw [hlen] at hlt
        have h1 : n + 1 ≤ k := by omega
        have h2 : k < (n + 1) + (insertedRows rs).length := by omega
        have hne : (some k == some n) = false := by
          simp [hk]
        simp only [runInserts, h, hne, Bool.false_eq_true, if_false]
        exact ih (n + 1) (pending ++ [cr]) k h1 h2

end ComplaintsModel

/-- C1: every result of `clean_data` is either `none` or a cleaned row
whose key list is exactly the 7 keys `complaint_id, product, issue,
company, state, submitted_via, date_received`, in order — no key missing
and no extra key. -/
theorem ComplaintsModel.clean_data_exact_keys (r : ComplaintsModel.Record)
    (l : ComplaintsModel.CleanedRow) (h : ComplaintsModel.clean_data r = some l) :
    l.map Prod.fst =
      ["complaint_id", "product", "issue", "company", "state",
       "submitted_via", "date_received"] := by
  rcases ComplaintsModel.clean_data_cases r l h with ⟨_, rfl⟩ | ⟨n, _, _, rfl⟩ <;> rfl

/-- Witness for C1: the empty record is cleaned, and the resulting keys
are exactly the 7. -/
theorem ComplaintsModel.clean_data_exact_keys_spot :
    ComplaintsModel.clean_data [] =
      some (ComplaintsModel.buildRow .null []) ∧
    (ComplaintsModel.buildRow .null []).map Prod.fst =
      ["complaint_id", "product", "issue", "company", "state",
       "submitted_via", "date_received"] :=
  ⟨rfl, ComplaintsModel.clean_data_exact_keys [] _ rfl⟩

/-- C2 counterexample: a record whose `Date received` is present and
unparsable is nevertheless dropped entirely (result `none`, not a
cleaned row) when the `Complaint ID` cast raises, contradicting the
claim that such a record always yields a cleaned row. -/
theorem ComplaintsModel.unparsable_date_row_dropped_cex :
    ComplaintsModel.truthy (ComplaintsModel.rowGet
      [("Complaint ID", .str "abc"), ("Date received", .str "not-a-date")]
      "Date received") = true ∧
    ComplaintsModel.parseDateCoerce (ComplaintsModel.rowGet
      [("Complaint ID", .str "abc"), ("Date received", .str "not-a-date")]
      "Date received") = none ∧
    ComplaintsModel.clean_data
      [("Complaint ID", .str "abc"), ("Date received", .str "not-a-date")] = none := by
  decide

/-- C2 (amended): for every record whose `Date received` is present
(truthy) but unparsable, provided no other cast raises (the only other
fallible cast being `int` on a truthy `Complaint ID`), `clean_data`
returns a cleaned row — the row is not dropped — whose `date_received`
field is null. -/
theorem ComplaintsModel.clean_data_unparsable_date_null (r : ComplaintsModel.Record)
    (ht : ComplaintsModel.truthy (ComplaintsModel.rowGet r "Date received") = true)
    (hp : ComplaintsModel.parseDateCoerce (ComplaintsModel.rowGet r "Date received") = none)
    (hc : ComplaintsModel.truthy (ComplaintsModel.rowGet r "Complaint ID") = false ∨
      ComplaintsModel.castInt (ComplaintsModel.rowGet r "Complaint ID") ≠ none) :
    ∃ l, ComplaintsModel.clean_data r = some l ∧
      ComplaintsModel.rowLookup l "date_received" = some .null := by
  have hdate : ComplaintsModel.dateField r = .null :=
    ComplaintsModel.dateField_unparsable r ht hp
  rcases hc with hc | hc
  · refine ⟨ComplaintsModel.buildRow .null r, ?_, ?_⟩
    · unfold ComplaintsModel.clean_data
      simp [hc]
    · show some (ComplaintsModel.dateField r) = some .null
      rw [hdate]
  · cases hci : ComplaintsModel.castInt (ComplaintsModel.rowGet r "Complaint ID") with
    | none => exact absurd hci hc
    | some n =>
      cases hct : ComplaintsModel.truthy (ComplaintsModel.rowGet r "Complaint ID") with
      | false =>
        refine ⟨ComplaintsModel.buildRow .null r, ?_, ?_⟩
        · unfold ComplaintsModel.clean_data
          simp [hct]
        · show some (ComplaintsModel.dateField r) = some .null
          rw [hdate]
      | true =>
        refine ⟨ComplaintsModel.buildRow (.int n) r, ?_, ?_⟩
        · unfold ComplaintsModel.clean_data
          simp [hct, hci]
        · show some (ComplaintsModel.dateField r) = some .null
          rw [hdate]

/-- Witness for the amended C2: the record with only an unparsable
`Date received` is kept, with a null `date_received`. -/
theorem ComplaintsModel.clean_data_unparsable_date_null_spot :
    ∃ l, ComplaintsModel.clean_data [("Date received", .str "not-a-date")] = some l ∧
      ComplaintsModel.rowLookup l "date_received" = some .null :=
  ComplaintsModel.clean_data_unparsable_date_null _ (by decide) (by decide)
    (Or.inl (by decide))

/-- C3: if an insert raises at any executed row of the batch, the commit
is skipped and the destination table is unchanged; the error is reported
(`false` flag) rather than propagated. -/
theorem ComplaintsModel.store_aborts_without_commit (data : List ComplaintsModel.Record)
    (table : List ComplaintsModel.DBRow) (k : Nat)
    (h : k < (ComplaintsModel.insertedRows data).length) :
    ComplaintsModel.store_data_in_sql (some k) data table = (table, false) := by
  unfold ComplaintsModel.store_data_in_sql
  rw [ComplaintsModel.runInserts_fail data 0 [] k (Nat.zero_le k) (by simpa using h)]

/-- Witness for C3: a 2-row batch failing at the second insert commits
nothing on top of a nonempty existing table. -/
theorem ComplaintsModel.store_aborts_without_commit_spot :
    1 < (ComplaintsModel.insertedRows
      [[("Complaint ID", .int 1)], [("Complaint ID", .int 2)]]).length ∧
    ComplaintsModel.store_data_in_sql (some 1)
      [[("Complaint ID", .int 1)], [("Complaint ID", .int 2)]]
      [ComplaintsModel.buildRow .null []] =
      ([ComplaintsModel.buildRow .null []], false) :=
  ⟨by decide, ComplaintsModel.store_aborts_without_commit _ _ 1 (by decide)⟩

/-- C4: if the `Complaint ID` value is truthy but its `int` cast raises,
`clean_data` returns `none` — the whole row is dropped and no exception
escapes (the function is total). -/
theorem ComplaintsModel.clean_data_drops_on_cast_error (r : ComplaintsModel.Record)
    (ht : ComplaintsModel.truthy (ComplaintsModel.rowGet r "Complaint ID") = true)
    (hc : ComplaintsModel.castInt (ComplaintsModel.rowGet r "Complaint ID") = none) :
    ComplaintsModel.clean_data r = none := by
  unfold ComplaintsModel.clean_data
  simp [ht, hc]

/-- Witness for C4: a non-numeric `Complaint ID` drops the row. -/
theorem ComplaintsModel.clean_data_drops_on_cast_error_spot :
    ComplaintsModel.clean_data [("Complaint ID", .str "abc")] = none :=
  ComplaintsModel.clean_data_drops_on_cast_error _ (by decide) (by decide)

/-- C5: in every cleaned row, a field whose raw source value is falsy
(absent, `None`, empty string or zero) is null, and a truthy one carries
the cast value; and the specification's example row cleans to exactly
the stated dict. -/
theorem ComplaintsModel.clean_data_falsy_null_truthy_cast :
    (∀ (r : ComplaintsModel.Record) (l : ComplaintsModel.CleanedRow),
      ComplaintsModel.clean_data r = some l →
      (ComplaintsModel.rowLookup l "product" =
        some (if ComplaintsModel.truthy (ComplaintsModel.rowGet r "Product")
          then .str (ComplaintsModel.castStr (ComplaintsModel.rowGet r "Product"))
          else .null)) ∧
      (ComplaintsModel.rowLookup l "issue" =
        some (if ComplaintsModel.truthy (ComplaintsModel.rowGet r "Issue")
          then .str (ComplaintsModel.castStr (ComplaintsModel.rowGet r "Issue"))
          else .null)) ∧
      (ComplaintsModel.rowLookup l "company" =
        some (if ComplaintsModel.truthy (ComplaintsModel.rowGet r "Company")
          then .str (ComplaintsModel.castStr (ComplaintsModel.rowGet r "Company"))
          else .null)) ∧
      (ComplaintsModel.rowLookup l "state" =
        some (if ComplaintsModel.truthy (ComplaintsModel.rowGet r "State")
          then .str (ComplaintsModel.castStr (ComplaintsModel.rowGet r "State"))
          else .null)) ∧
      (ComplaintsModel.rowLookup l "submitted_via" =
        some (if ComplaintsModel.truthy (ComplaintsModel.rowGet r "Submitted via")
          then .str (ComplaintsModel.castStr (ComplaintsModel.rowGet r "Submitted via"))
          else .null)) ∧
      (ComplaintsModel.truthy (ComplaintsModel.rowGet r "Complaint ID") = false →
        ComplaintsModel.rowLookup l "complaint_id" = some .null) ∧
      (∀ n : Int, ComplaintsModel.truthy (ComplaintsModel.rowGet r "Complaint ID") = true →
        ComplaintsModel.castInt (ComplaintsModel.rowGet r "Complaint ID") = some n →
        ComplaintsModel.rowLookup l "complaint_id" = some (.int n)) ∧
      (ComplaintsModel.truthy (ComplaintsModel.rowGet r "Date received") = false →
        ComplaintsModel.rowLookup l "date_received" = some .null) ∧
      (∀ d, ComplaintsModel.truthy (ComplaintsModel.rowGet r "Date received") = true →
        ComplaintsModel.parseDateCoerce (ComplaintsModel.rowGet r "Date received") = some d →
        ComplaintsModel.rowLookup l "date_received" = some (.date d))) ∧
    ComplaintsModel.clean_data
      [("Complaint ID", .str "123"), ("Product", .str "Loan"),
       ("Date received", .str "2021-01-05")] =
      some [("complaint_id", .int 123), ("product", .str "Loan"), ("issue", .null),
            ("company", .null), ("state", .null), ("submitted_via", .null),
            ("date_received", .date ⟨2021, 1, 5⟩)] := by
  refine ⟨?_, by decide⟩
  intro r l h
  rcases ComplaintsModel.clean_data_cases r l h with ⟨hct, rfl⟩ | ⟨n, hct, hci, rfl⟩
  · refine ⟨rfl, rfl, rfl, rfl, rfl, fun _ => rfl, ?_, ?_, ?_⟩
    · intro n ht _
      rw [hct] at ht
      exact Bool.noConfusion ht
    · intro hdf
      show some (ComplaintsModel.dateField r) = some .null
      rw [ComplaintsModel.dateField_falsy r hdf]
    · intro d hdt hdp
      show some (ComplaintsModel.dateField r) = some (.date d)
      rw [ComplaintsModel.dateField_parsed r d hdt hdp]
  · refine ⟨rfl, rfl, rfl, rfl, rfl, ?_, ?_, ?_, ?_⟩
    · intro hf
      rw [hct] at hf
      exact Bool.noConfusion hf
    · intro n' _ hci'
      rw [hci] at hci'
      injection hci' with e
      rw [e]
      rfl
    · intro hdf
      show some (ComplaintsModel.dateField r) = some .null
      rw [ComplaintsModel.dateField_falsy r hdf]
    · intro d hdt hdp
      show some (ComplaintsModel.dateField r) = some (.date d)
      rw [ComplaintsModel.dateField_parsed r d hdt hdp]

/-- Witness for C5: the specification's example row, instantiating the
general field rules at its `product` column. -/
theorem ComplaintsModel.clean_data_falsy_null_truthy_cast_spot :
    ComplaintsModel.rowLookup
      [("complaint_id", .int 123), ("product", .str "Loan"), ("issue", .null),
       ("company", .null), ("state", .null), ("submitted_via", .null),
       ("date_received", .date ⟨2021, 1, 5⟩)] "product" =
      some (if ComplaintsModel.truthy (ComplaintsModel.rowGet
          [("Complaint ID", .str "123"), ("Product", .str "Loan"),
           ("Date received", .str "2021-01-05")] "Product")
        then .str (ComplaintsModel.castStr (ComplaintsModel.rowGet
          [("Complaint ID", .str "123"), ("Product", .str "Loan"),
           ("Date received", .str "2021-01-05")] "Product"))
        else .null) :=
  (ComplaintsModel.clean_data_falsy_null_truthy_cast.1
    [("Complaint ID", .str "123"), ("Product", .str "Loan"),
     ("Date received", .str "2021-01-05")]
    _ (by decide)).1

/-- C8: when decompression or parsing raises, `extract_and_read_csv`
returns `None` and `main` skips the persister entirely — for every
possible insert behaviour the destination table is untouched and the
run reports "no data". -/
theorem ComplaintsModel.extract_failure_skips_persist (e : String)
    (failIdx : Option Nat) (table : List ComplaintsModel.DBRow) :
    ComplaintsModel.mainAfterExtract failIdx
      (ComplaintsModel.extract_and_read_csv (.error e)) table =
      (table, .noData) := rfl

/-- C9: the persister is append-only with no uniqueness check — running
it twice on the same batch over the same destination appends the batch's
cleaned rows twice. -/
theorem ComplaintsModel.store_twice_appends_twice (data : List ComplaintsModel.Record)
    (table : List ComplaintsModel.DBRow) :
    ComplaintsModel.store_data_in_sql none data
      (ComplaintsModel.store_data_in_sql none data table).1 =
      ((table ++ ComplaintsModel.insertedRows data) ++ ComplaintsModel.insertedRows data,
       true) := by
  simp [ComplaintsModel.store_data_in_sql, ComplaintsModel.runInserts_none_ok]

namespace DemographicsModel

theorem lookupJ_nil (k : String) : lookupJ [] k = none := rfl

theorem isOkE_exists {α : Type} {e : Except PyErr α} (h : isOkE e = true) :
    ∃ x, e = .ok x := by
  cases e with
  | ok x => exact ⟨x, rfl⟩
  | error _ => simp [isOkE] at h

theorem getD_obj (fields : List (String × Json)) (k : String)
    (h : jObjOrAbsent fields k = true) :
    ∃ p, (lookupJ fields k).getD (.obj []) = .obj p := by
  unfold jObjOrAbsent at h
  split at h
  · rename_i heq
    exact ⟨[], by rw [heq]; rfl⟩
  · rename_i p heq
    exact ⟨p, by rw [heq]; rfl⟩
  · exact Bool.noConfusion h

theorem goodGender_elim (fields : List (String × Json)) (h : goodGender fields = true) :
    ∃ p, (lookupJ fields "population_by_gender").getD (.obj []) = .obj p ∧
      ∃ s, (lookupJ p "summary").getD (.obj []) = .obj s ∧
        jObjOrAbsent s "total" = true := by
  unfold goodGender at h
  split at h
  · rename_i heq
    exact ⟨[], by rw [heq]; rfl, [], rfl, rfl⟩
  · rename_i p heq
    refine ⟨p, by rw [heq]; rfl, ?_⟩
    split at h
    · rename_i heq2
      exact ⟨[], by rw [heq2]; rfl, rfl⟩
    · rename_i s heq2
      exact ⟨s, by rw [heq2]; rfl, h⟩
    · exact Bool.noConfusion h
  · exact Bool.noConfusion h

theorem goodMedian_elim (fields : List (String × Json)) (h : goodMedian fields = true) :
    ∃ m, (lookupJ fields "median_age").getD (.obj []) = .obj m ∧
      jObjOrAbsent m "total" = true ∧ jObjOrAbsent m "male" = true ∧
      jObjOrAbsent m "female" = true := by
  unfold goodMedian at h
  split at h
  · rename_i heq
    exact ⟨[], by rw [heq]; rfl, rfl, rfl, rfl⟩
  · rename_i m heq
    rw [Bool.and_assoc] at h
    rcases Bool.and_eq_true_iff.mp h with ⟨ht, hmf⟩
    rcases Bool.and_eq_true_iff.mp hmf with ⟨hm, hf⟩
    exact ⟨m, by rw [heq]; rfl, ht, hm, hf⟩
  · exact Bool.noConfusion h

theorem goodAge_elim (fields : List (String × Json)) (h : goodAge fields = true) :
    ∃ p, (lookupJ fields "population_by_age").getD (.obj []) = .obj p ∧
      ∃ t, (lookupJ p "total").getD (.obj []) = .obj t ∧
        ∀ g ∈ ageGroups, jObjOrAbsent t g = true := by
  unfold goodAge at h
  split at h
  · rename_i heq
    exact ⟨[], by rw [heq]; rfl, [], rfl, fun g _ => rfl⟩
  · rename_i p heq
    refine ⟨p, by rw [heq]; rfl, ?_⟩
    split at h
    · rename_i heq2
      exact ⟨[], by rw [heq2]; rfl, fun g _ => rfl⟩
    · rename_i t heq2
      exact ⟨t, by rw [heq2]; rfl, fun g hg => List.all_eq_true.mp h g hg⟩
    · exact Bool.noConfusion h
  · exact Bool.noConfusion h

theorem baseCols_ok (fields : List (String × Json))
    (hg : goodGender fields = true) (hm : goodMedian fields = true) :
    isOkE (baseCols (.obj fields)) = true := by
  obtain ⟨p, hp, s, hs, hst⟩ := goodGender_elim fields hg
  obtain ⟨gt, hgt⟩ := getD_obj s "total" hst
  obtain ⟨m, hm1, hmt, hmm, hmf⟩ := goodMedian_elim fields hm
  obtain ⟨mt, hmt1⟩ := getD_obj m "total" hmt
  obtain ⟨mm, hmm1⟩ := getD_obj m "male" hmm
  obtain ⟨mf, hmf1⟩ := getD_obj m "female" hmf
  simp [baseCols, pyGet, pyGetD, Bind.bind, Except.bind, hp, hs, hgt, hm1,
    hmt1, hmm1, hmf1, isOkE, pure, Except.pure]

theorem groupCols_ok (fields : List (String × Json)) (g : String)
    (ha : goodAge fields = true) (hg : g ∈ ageGroups) :
    isOkE (groupCols (.obj fields) g) = true := by
  obtain ⟨p, hp, t, ht, hall⟩ := goodAge_elim fields ha
  obtain ⟨gd, hgd⟩ := getD_obj t g (hall g hg)
  simp [groupCols, groupData, pyGet, pyGetD, Bind.bind, Except.bind, hp, ht,
    hgd, isOkE, pure, Except.pure]

theorem mapME_ok {α β : Type} (f : α → Except PyErr β) (l : List α)
    (h : ∀ a ∈ l, isOkE (f a) = true) : isOkE (mapME f l) = true := by
  induction l with
  | nil => rfl
  | cons a l ih =>
    obtain ⟨b, hb⟩ := isOkE_exists (h a (List.mem_cons_self a l))
    obtain ⟨bs, hbs⟩ := isOkE_exists (ih (fun x hx => h x (List.mem_cons_of_mem a hx)))
    simp [mapME, hb, hbs, Bind.bind, Except.bind, isOkE, pure, Except.pure]

theorem flattenRecord_ok (r : Json) (h : goodRecord r = true) :
    isOkE (flattenRecord r) = true := by
  cases r with
  | obj fields =>
    have h2 : (goodGender fields && goodMedian fields && goodAge fields) = true := h
    rw [Bool.and_assoc] at h2
    rcases Bool.and_eq_true_iff.mp h2 with ⟨hg, hrest⟩
    rcases Bool.and_eq_true_iff.mp hrest with ⟨hm, ha⟩
    obtain ⟨base, hbase⟩ := isOkE_exists (baseCols_ok fields hg hm)
    obtain ⟨groups, hgroups⟩ :=
      isOkE_exists (mapME_ok (groupCols (.obj fields)) ageGroups
        (fun g hg2 => groupCols_ok fields g ha hg2))
    simp [flattenRecord, hbase, hgroups, Bind.bind, Except.bind, isOkE, pure,
      Except.pure]
  | null => exact Bool.noConfusion h
  | str _ => exact Bool.noConfusion h
  | num _ => exact Bool.noConfusion h
  | arr _ => exact Bool.noConfusion h

end DemographicsModel

/-- C6: along the age-group extraction path
`population_by_age → total → group → year`, a key missing at any level
(earlier levels being objects) yields a null cell, not an error; and on
the specification's example record the output row has
`population_0_4_2019 = 120` and `population_0_4_2010_census` null. -/
theorem DemographicsModel.age_path_missing_null :
    (∀ (fields : List (String × DemographicsModel.Json)) (g y : String),
      DemographicsModel.missingAt fields g y = true →
      DemographicsModel.ageCol (.obj fields) g y = .ok none) ∧
    DemographicsModel.colValues
      (.arr [.obj [("population_by_age",
        .obj [("total", .obj [("0_4", .obj [("2019", .num 120)])])])]])
      "population_0_4_2019" = .ok [some (some (.num 120))] ∧
    DemographicsModel.colValues
      (.arr [.obj [("population_by_age",
        .obj [("total", .obj [("0_4", .obj [("2019", .num 120)])])])]])
      "population_0_4_2010_census" = .ok [some none] := by
  refine ⟨?_, rfl, rfl⟩
  intro fields g y h
  unfold DemographicsModel.missingAt at h
  split at h
  · rename_i heq
    simp [DemographicsModel.ageCol, DemographicsModel.groupData,
      DemographicsModel.pyGetD, DemographicsModel.pyGet,
      DemographicsModel.lookupJ_nil, heq, Bind.bind, Except.bind]
  · rename_i p heq
    split at h
    · rename_i heq2
      simp [DemographicsModel.ageCol, DemographicsModel.groupData,
        DemographicsModel.pyGetD, DemographicsModel.pyGet,
        DemographicsModel.lookupJ_nil, heq, heq2, Bind.bind, Except.bind]
    · rename_i t heq2
      split at h
      · rename_i heq3
        simp [DemographicsModel.ageCol, DemographicsModel.groupData,
          DemographicsModel.pyGetD, DemographicsModel.pyGet,
          DemographicsModel.lookupJ_nil, heq, heq2, heq3, Bind.bind, Except.bind]
      · rename_i gd heq3
        have h4 : DemographicsModel.lookupJ gd y = none :=
          Option.isNone_iff_eq_none.mp h
        simp [DemographicsModel.ageCol, DemographicsModel.groupData,
          DemographicsModel.pyGetD, DemographicsModel.pyGet,
          heq, heq2, heq3, h4, Bind.bind, Except.bind]
      · exact Bool.noConfusion h
    · exact Bool.noConfusion h
  · exact Bool.noConfusion h

/-- Witness for C6: a record with no `population_by_age` key at all gets
a null age-group cell. -/
theorem DemographicsModel.age_path_missing_null_spot :
    DemographicsModel.ageCol (.obj []) "0_4" "2019" = .ok none :=
  DemographicsModel.age_path_missing_null.1 [] "0_4" "2019" rfl

/-- C7 counterexample: a payload that is a list of objects on which
`json_to_dataframe` nevertheless fails fatally — the nested value
`population_by_gender = 5` is not an object, so the chained `.get`
raises `AttributeError`. -/
theorem DemographicsModel.list_of_objects_fatal_cex :
    ([DemographicsModel.Json.obj [("population_by_gender", .num 5)]].all
      DemographicsModel.isObjJ) = true ∧
    DemographicsModel.json_to_dataframe
      (.arr [.obj [("population_by_gender", .num 5)]]) = .error .attrError :=
  ⟨rfl, rfl⟩

/-- C7 (amended): `json_to_dataframe` raises `ValueError` exactly on
payloads that are not lists, and it returns normally on every list of
objects in which each value met along the fixed extraction paths is an
object whenever present; a list of objects violating that can instead
raise `AttributeError`. -/
theorem DemographicsModel.json_to_dataframe_fatal_conditions :
    (∀ j : DemographicsModel.Json, DemographicsModel.isArr j = false →
      DemographicsModel.json_to_dataframe j = .error .valueError) ∧
    (∀ records : List DemographicsModel.Json,
      records.all DemographicsModel.goodRecord = true →
      DemographicsModel.isOkE
        (DemographicsModel.json_to_dataframe (.arr records)) = true) := by
  constructor
  · intro j h
    cases j with
    | arr _ => exact Bool.noConfusion h
    | null => rfl
    | str _ => rfl
    | num _ => rfl
    | obj _ => rfl
  · intro records h
    exact DemographicsModel.mapME_ok DemographicsModel.flattenRecord records
      (fun r hr => DemographicsModel.flattenRecord_ok r
        (List.all_eq_true.mp h r hr))

/-- Witness for the amended C7: a non-list payload raises `ValueError`,
and a one-object list with object-valued nesting succeeds. -/
theorem DemographicsModel.json_to_dataframe_fatal_conditions_spot :
    DemographicsModel.json_to_dataframe (.num 0) = .error .valueError ∧
    DemographicsModel.isOkE
      (DemographicsModel.json_to_dataframe (.arr [.obj []])) = true :=
  ⟨DemographicsModel.json_to_dataframe_fatal_conditions.1 (.num 0) rfl,
   DemographicsModel.json_to_dataframe_fatal_conditions.2 [.obj []] rfl⟩

/-- C10: when `json_to_dataframe` raises `ValueError`, the `__main__`
flow catches and prints it, continues, and then dies with an uncaught
`NameError` at the persist step (`df` was never assigned) instead of
exiting cleanly. -/
theorem DemographicsModel.valueError_then_nameError (j : DemographicsModel.Json)
    (h : DemographicsModel.json_to_dataframe j = .error .valueError) :
    DemographicsModel.demographicsMain j = .error .nameError := by
  simp [DemographicsModel.demographicsMain, DemographicsModel.mainTransform, h,
    DemographicsModel.mainSave, Bind.bind, Except.bind]

/-- Witness for C10: a non-list payload ends the run in `NameError`. -/
theorem DemographicsModel.valueError_then_nameError_spot :
    DemographicsModel.demographicsMain (.num 0) = .error .nameError :=
  DemographicsModel.valueError_then_nameError (.num 0) rfl
